import Mathlib

/-!
Formal model of the audio pipeline in `src/aivoice.py` (class
`ProfessionalTTS` and the Streamlit request handlers in `main`).

The script delegates all signal processing to the external pydub library,
so an audio buffer is modelled as the tree of pydub operations that were
applied to it (`Seg`).  The observable the specification reasons about, the
duration of a buffer in milliseconds, is computed by `Seg.msLen` from an
environment `PydubEnv` interpreting the external inputs: the length of each
decoded audio file and the output length of the external time-stretch
algorithm, plus the request timestamp.

External side effects of the orchestrator (the gTTS synthesis call, the MP3
export, file removal) are recorded as an explicit `Event` trace, and Python
exceptions are modelled with `Except PydubError`.

A note on pydub numeric multiplication, used at `aivoice.py` lines 27, 31
and 44: `AudioSegment.__mul__` with a number repeats the raw sample data
(the specification itself describes line 44, `background * times_to_loop`,
as "repeat (concatenate) it enough times"), so a segment multiplied by a
natural number `n` is the segment concatenated `n` times, and a non-integer
multiplier such as `1.5` is a Python `TypeError` (sequence repetition
requires an integer count).  `pydubMulNum` models exactly this.
-/

/-- Python exceptions raised by the modelled library calls. -/
inductive PydubError where
  | typeError (msg : String)
  | zeroDivisionError
  deriving DecidableEq, Repr

/-- The text produced by `str(e)` for a modelled exception, as interpolated
into the UI error message. -/
def pydubErrorMsg : PydubError → String
  | .typeError m => m
  | .zeroDivisionError => "division by zero"

/-- Boolean success test for a modelled Python call. -/
def exceptIsOk {ε α : Type} : Except ε α → Bool
  | .ok _ => true
  | .error _ => false

/-- An audio buffer, represented as the tree of pydub operations applied to
it.  Constructors correspond one-to-one to the pydub calls appearing in
`aivoice.py`: `AudioSegment.from_file` / `from_mp3`, `normalize`,
`low_pass_filter`, `high_pass_filter`, numeric multiplication by a natural
number (raw data repetition), slicing `seg[:n]`, dB gain `seg + db`,
`overlay`, and `speedup`. -/
inductive Seg where
  | from_file (path : String)
  | normalize (s : Seg)
  | low_pass_filter (s : Seg) (cutoff : Nat)
  | high_pass_filter (s : Seg) (cutoff : Nat)
  | mulData (s : Seg) (n : Nat)
  | slice (s : Seg) (n : Nat)
  | gain (s : Seg) (db : Int)
  | overlay (a b : Seg)
  | speedup (s : Seg) (playback_speed : Rat)
  deriving DecidableEq, Repr

/-- Interpretation of the external world for one request: the request
timestamp (`time.strftime`), the decoded duration in milliseconds of the
audio file at each path, and the output duration of the external pydub
`speedup` algorithm as a function of the factor and the input duration. -/
structure PydubEnv where
  timestamp : String
  decodeLen : String → Nat
  speedupLen : Rat → Nat → Nat

/-- Modelled from the spec: duration of a buffer in milliseconds, following
the documented pydub behavior the specification relies on.  Normalization,
the two filters and dB gain preserve duration ("filters/overlay do not
change length"); `overlay` keeps the duration of the receiver; repeating
the raw data `n` times multiplies the duration by `n` ("repeat
(concatenate) it enough times"); slicing `seg[:n]` truncates to at most
`n`; `speedup` is the external time-stretch algorithm, interpreted by the
environment. -/
def Seg.msLen (env : PydubEnv) : Seg → Nat
  | .from_file p => env.decodeLen p
  | .normalize s => s.msLen env
  | .low_pass_filter s _ => s.msLen env
  | .high_pass_filter s _ => s.msLen env
  | .mulData s n => n * s.msLen env
  | .slice s n => min n (s.msLen env)
  | .gain s _ => s.msLen env
  | .overlay a _ => a.msLen env
  | .speedup s f => env.speedupLen f (s.msLen env)

/-- Modelled from the spec: pydub numeric multiplication `seg * x` repeats
the raw sample data `x` times (the mixer loop of the specification).
Python sequence repetition rejects a non-integer count with a `TypeError`;
a negative integer count yields empty data, matching `Int.toNat`. -/
def pydubMulNum (s : Seg) (x : Rat) : Except PydubError Seg :=
  if x.den = 1 then .ok (s.mulData x.num.toNat)
  else .error (.typeError "cannot multiply sequence by non-int of type float")

/-- The `ProfessionalTTS` object state: the constructor argument
`output_dir` (default `"audio_output"`). -/
structure ProfessionalTTS where
  output_dir : String := "audio_output"

/-- `ProfessionalTTS.enhance_audio`, `aivoice.py` lines 16 to 36:
normalize, derive a low-pass copy multiplied by `bass_multiplier = 3`,
derive a high-pass copy multiplied by `treble_multiplier = 1.5` (written
`mkRat 3 2`, see `treble_multiplier_value`), overlay both onto the
normalized audio.  The multiplications are pydub numeric multiplication
(`pydubMulNum`). -/
def enhance_audio (audio_segment : Seg) : Except PydubError Seg :=
  let audio := Seg.normalize audio_segment
  let bass_multiplier : Rat := 3
  let treble_multiplier : Rat := mkRat 3 2
  match pydubMulNum (audio.low_pass_filter 300) bass_multiplier with
  | .error e => .error e
  | .ok bass =>
    match pydubMulNum (audio.high_pass_filter 2000) treble_multiplier with
    | .error e => .error e
    | .ok treble => .ok ((audio.overlay bass).overlay treble)

/-- `ProfessionalTTS.add_background_music`, `aivoice.py` lines 38 to 49.
The Python expression `int(len(voice_audio) / len(background))` raises
`ZeroDivisionError` when the music buffer has length zero; that division is
modelled by natural division behind an explicit zero guard, and is only
reached when the music is strictly shorter than the voice. -/
def add_background_music (env : PydubEnv) (voice_audio : Seg) (music_path : String)
    (music_volume : Int := -20) : Except PydubError Seg :=
  let background := Seg.from_file music_path
  let looped : Except PydubError Seg :=
    if background.msLen env < voice_audio.msLen env then
      if background.msLen env = 0 then .error .zeroDivisionError
      else
        pydubMulNum background
          ((voice_audio.msLen env / background.msLen env + 1 : Nat) : Rat)
    else .ok background
  match looped with
  | .error e => .error e
  | .ok looped1 =>
      .ok (voice_audio.overlay ((looped1.slice (voice_audio.msLen env)).gain music_volume))

/-- External side effects performed by the orchestrator: `tts.save`
(the gTTS synthesis writing the raw file), `AudioSegment.export`, and
`os.remove`. -/
inductive Event where
  | ttsSave (text lang : String) (slow : Bool) (path : String)
  | exportFile (path format bitrate : String)
  | removeFile (path : String)
  deriving DecidableEq, Repr

/-- Result of one `create_audio` call: the trace of external side effects
performed before returning or raising, and the returned output path or the
propagated exception. -/
structure CreateResult where
  events : List Event
  result : Except PydubError String

/-- `ProfessionalTTS.create_audio`, `aivoice.py` lines 51 to 73: build the
timestamped output path, synthesize the raw voice to the fixed relative
path `"temp.mp3"`, decode it, enhance it, apply `speedup` unless the speed
factor equals `1.0`, mix in the background music when a truthy path is
given (the call passes no volume, so the `-20` default applies), export as
MP3 at bitrate `"192k"`, remove the raw file, and return the output path.
An exception at any stage propagates with the trace accumulated so far. -/
def create_audio (self : ProfessionalTTS) (env : PydubEnv) (text title : String)
    (background_music : Option String := none) (speed : Rat := 1) : CreateResult :=
  let timestamp := env.timestamp
  let output_file := self.output_dir ++ "/" ++ title ++ "_" ++ timestamp ++ ".mp3"
  let temp_file := "temp.mp3"
  let ev := [Event.ttsSave text "en" false temp_file]
  let audio := Seg.from_file temp_file
  match enhance_audio audio with
  | .error e => ⟨ev, .error e⟩
  | .ok audio1 =>
    let audio2 := if speed ≠ 1 then audio1.speedup speed else audio1
    let mixed : Except PydubError Seg :=
      match background_music with
      | some bg => if bg = "" then .ok audio2 else add_background_music env audio2 bg
      | none => .ok audio2
    match mixed with
    | .error e => ⟨ev, .error e⟩
    | .ok _ =>
        ⟨ev ++ [Event.exportFile output_file "mp3" "192k", Event.removeFile temp_file],
          .ok output_file⟩

/-- Result of one `batch_process` call: the accumulated side-effect trace
and either the title-to-path association (insertion order, as a Python
dict) or the exception propagated from the first failing story. -/
structure BatchResult where
  events : List Event
  result : Except PydubError (List (String × String))

/-- The sequential loop of `batch_process`: process each story in order,
accumulate `results[title] = output_file`, and propagate the first
exception, aborting the remaining stories. -/
def batchLoop (self : ProfessionalTTS) (env : PydubEnv) (background_music : Option String)
    (speed : Rat) :
    List (String × String) → List Event → List (String × String) → BatchResult
  | [], evs, results => ⟨evs, .ok results⟩
  | (title, text) :: rest, evs, results =>
    let r := create_audio self env text title background_music speed
    match r.result with
    | .error e => ⟨evs ++ r.events, .error e⟩
    | .ok output_file =>
        batchLoop self env background_music speed rest (evs ++ r.events)
          (results ++ [(title, output_file)])

/-- `ProfessionalTTS.batch_process`, `aivoice.py` lines 75 to 81. -/
def batch_process (self : ProfessionalTTS) (env : PydubEnv)
    (stories_dict : List (String × String)) (background_music : Option String := none)
    (speed : Rat := 1) : BatchResult :=
  batchLoop self env background_music speed stories_dict [] []

/-- What the single-story tab renders after the generate button. -/
inductive UIOutcome where
  | warningShown (msg : String)
  | errorShown (msg : String)
  | audioShown (path : String)
  deriving DecidableEq, Repr

/-- Outcome of one single-story generate click: what is rendered, and the
external side effects performed. -/
structure RunResult where
  outcome : UIOutcome
  events : List Event
  deriving DecidableEq, Repr

/-- The single-story generate handler, `aivoice.py` lines 140 to 172: an
empty story text short-circuits to `st.warning` with no processing;
otherwise a `ProfessionalTTS` scoped to the request temporary directory is
built, an uploaded music file is staged at `<temp_dir>/background.mp3`, and
`create_audio` is called with the text, title, music path and speed.  The
`music_volume` slider value is read by the page but not passed to the call.
An exception is rendered through `st.error`. -/
def single_story_generate (env : PydubEnv) (temp_dir story_title story_text : String)
    (background_music_file : Option String) (speed : Rat) (music_volume : Int) : RunResult :=
  if story_text ≠ "" then
    let tts_engine : ProfessionalTTS := ⟨temp_dir⟩
    let bg_music_path : Option String :=
      match background_music_file with
      | some _ => some (temp_dir ++ "/background.mp3")
      | none => none
    let r := create_audio tts_engine env story_text story_title bg_music_path speed
    match r.result with
    | .ok output_file => ⟨.audioShown output_file, r.events⟩
    | .error e => ⟨.errorShown ("An error occurred: " ++ pydubErrorMsg e), r.events⟩
  else ⟨.warningShown "Please enter some text to generate audio.", []⟩

/-- A concrete interpretation of the external inputs, used to evaluate the
pipeline on closed inputs: the synthesized voice decoded from `temp.mp3`
lasts 10000 ms, an uploaded `music.mp3` lasts 400 ms, and a degenerate
`silent.mp3` lasts 0 ms. -/
def demoEnv : PydubEnv :=
  { timestamp := "20260101_120000"
    decodeLen := fun p => if p = "music.mp3" then 400 else if p = "silent.mp3" then 0 else 10000
    speedupLen := fun f n => if f = 2 then n / 2 else n }

/-! ### Helper lemmas -/

/-- The source literal `1.5` and the model constant `mkRat 3 2` denote the
same rational. -/
theorem treble_multiplier_value : mkRat 3 2 = 1.5 := by norm_num

/-- Multiplying a buffer by a natural number count succeeds and repeats the
data that many times. -/
theorem pydubMulNum_natCast (s : Seg) (n : Nat) :
    pydubMulNum s (n : Rat) = .ok (s.mulData n) := by
  simp [pydubMulNum]

/-- Looping `D / M + 1` copies of an `M`-millisecond clip covers `D`
milliseconds. -/
theorem nat_le_div_succ_mul (D M : Nat) (hM : 0 < M) : D ≤ (D / M + 1) * M := by
  have h1 : M * (D / M) + D % M = D := Nat.div_add_mod D M
  have h2 : D % M < M := Nat.mod_lt D hM
  calc D = M * (D / M) + D % M := h1.symm
    _ ≤ M * (D / M) + M := by omega
    _ = (D / M + 1) * M := by ring

/-! ### Claims -/

/-- C1: for every voice buffer of duration `D` and non-empty music buffer of
duration `M`, `add_background_music` returns (no exception) a mixed buffer
of duration exactly `D`; when `M < D` the music is concatenated `D / M + 1`
times, which covers `D`, and truncated to `D`; when `D ≤ M` it is truncated
directly to `D`. -/
theorem add_background_music_duration (env : PydubEnv) (voice : Seg) (path : String)
    (v : Int) (hm : 0 < (Seg.from_file path).msLen env) :
    (add_background_music env voice path v).map (Seg.msLen env) = .ok (voice.msLen env) ∧
    ((Seg.from_file path).msLen env < voice.msLen env →
      add_background_music env voice path v =
        .ok (voice.overlay ((((Seg.from_file path).mulData
            (voice.msLen env / (Seg.from_file path).msLen env + 1)).slice
              (voice.msLen env)).gain v)) ∧
      voice.msLen env ≤
        (voice.msLen env / (Seg.from_file path).msLen env + 1) *
          (Seg.from_file path).msLen env) ∧
    (voice.msLen env ≤ (Seg.from_file path).msLen env →
      add_background_music env voice path v =
        .ok (voice.overlay (((Seg.from_file path).slice (voice.msLen env)).gain v))) := by
  have hM0 : (Seg.from_file path).msLen env ≠ 0 := Nat.pos_iff_ne_zero.mp hm
  by_cases h : (Seg.from_file path).msLen env < voice.msLen env
  · have hcover := nat_le_div_succ_mul (voice.msLen env) ((Seg.from_file path).msLen env) hm
    have heq : add_background_music env voice path v =
        .ok (voice.overlay ((((Seg.from_file path).mulData
            (voice.msLen env / (Seg.from_file path).msLen env + 1)).slice
              (voice.msLen env)).gain v)) := by
      simp only [add_background_music]
      rw [if_pos h, if_neg hM0, pydubMulNum_natCast]
    refine ⟨by rw [heq]; rfl, fun _ => ⟨heq, hcover⟩, fun h' => absurd h (Nat.not_lt.mpr h')⟩
  · have heq : add_background_music env voice path v =
        .ok (voice.overlay (((Seg.from_file path).slice (voice.msLen env)).gain v)) := by
      simp only [add_background_music]
      rw [if_neg h]
    exact ⟨by rw [heq]; rfl, fun h' => absurd h' h, fun _ => heq⟩

/-- Witness for C1, exercising the looping branch: a 400 ms music clip
under a 10000 ms voice. -/
theorem add_background_music_duration_witness :
    0 < (Seg.from_file "music.mp3").msLen demoEnv ∧
    ((add_background_music demoEnv (Seg.from_file "voice.mp3") "music.mp3" (-20)).map
        (Seg.msLen demoEnv) = .ok ((Seg.from_file "voice.mp3").msLen demoEnv) ∧
      ((Seg.from_file "music.mp3").msLen demoEnv <
          (Seg.from_file "voice.mp3").msLen demoEnv →
        add_background_music demoEnv (Seg.from_file "voice.mp3") "music.mp3" (-20) =
          .ok ((Seg.from_file "voice.mp3").overlay ((((Seg.from_file "music.mp3").mulData
              ((Seg.from_file "voice.mp3").msLen demoEnv /
                (Seg.from_file "music.mp3").msLen demoEnv + 1)).slice
                ((Seg.from_file "voice.mp3").msLen demoEnv)).gain (-20))) ∧
        (Seg.from_file "voice.mp3").msLen demoEnv ≤
          ((Seg.from_file "voice.mp3").msLen demoEnv /
              (Seg.from_file "music.mp3").msLen demoEnv + 1) *
            (Seg.from_file "music.mp3").msLen demoEnv) ∧
      ((Seg.from_file "voice.mp3").msLen demoEnv ≤
          (Seg.from_file "music.mp3").msLen demoEnv →
        add_background_music demoEnv (Seg.from_file "voice.mp3") "music.mp3" (-20) =
          .ok ((Seg.from_file "voice.mp3").overlay (((Seg.from_file "music.mp3").slice
            ((Seg.from_file "voice.mp3").msLen demoEnv)).gain (-20))))) :=
  ⟨by decide,
    add_background_music_duration demoEnv (Seg.from_file "voice.mp3") "music.mp3" (-20)
      (by decide)⟩

/-- C2: the claim reads lines 27 and 31 as amplitude scaling by fixed
multipliers 3 and 1.5.  In fact pydub numeric multiplication repeats the
raw sample data: `temp * 3` concatenates the bass copy three times (the
demo 10000 ms copy becomes 30000 ms rather than a same-length louder
buffer), and `temp * 1.5` is a `TypeError` because a sequence cannot be
repeated a non-integer number of times, so `enhance_audio` raises on every
input. -/
theorem enhance_audio_mul_is_repetition :
    enhance_audio (Seg.from_file "voice.mp3") =
      .error (.typeError "cannot multiply sequence by non-int of type float") ∧
    pydubMulNum ((Seg.normalize (Seg.from_file "voice.mp3")).low_pass_filter 300) 3 =
      .ok (((Seg.normalize (Seg.from_file "voice.mp3")).low_pass_filter 300).mulData 3) ∧
    (((Seg.normalize (Seg.from_file "voice.mp3")).low_pass_filter 300).mulData 3).msLen
      demoEnv = 30000 ∧
    ((Seg.normalize (Seg.from_file "voice.mp3")).low_pass_filter 300).msLen demoEnv =
      10000 :=
  ⟨rfl, rfl, rfl, rfl⟩

/-- C3: the single-story pipeline is insensitive to the background-music
volume slider: two runs differing only in the slider value (within the
declared -30..0 range) produce the same rendering and the same side
effects, and `add_background_music` called without the volume argument, as
`create_audio` calls it, applies the default -20 dB offset. -/
theorem music_volume_slider_inert (env : PydubEnv)
    (temp_dir story_title story_text : String) (bg : Option String) (speed : Rat)
    (voice : Seg) (music : String) (v v' : Int)
    (h1 : -30 ≤ v) (h2 : v ≤ 0) (h3 : -30 ≤ v') (h4 : v' ≤ 0) :
    single_story_generate env temp_dir story_title story_text bg speed v =
      single_story_generate env temp_dir story_title story_text bg speed v' ∧
    add_background_music env voice music = add_background_music env voice music (-20) :=
  ⟨rfl, rfl⟩

/-- Witness for C3 at the extreme slider values -30 and 0. -/
theorem music_volume_slider_inert_witness :
    ((-30 : Int) ≤ -30 ∧ (-30 : Int) ≤ 0 ∧ (-30 : Int) ≤ 0 ∧ (0 : Int) ≤ 0) ∧
    (single_story_generate demoEnv "tmpdir" "My Story" "Once upon a time" none 1 (-30) =
        single_story_generate demoEnv "tmpdir" "My Story" "Once upon a time" none 1 0 ∧
      add_background_music demoEnv (Seg.from_file "voice.mp3") "music.mp3" =
        add_background_music demoEnv (Seg.from_file "voice.mp3") "music.mp3" (-20)) :=
  ⟨by decide,
    music_volume_slider_inert demoEnv "tmpdir" "My Story" "Once upon a time" none 1
      (Seg.from_file "voice.mp3") "music.mp3" (-30) 0 (by decide) (by decide) (by decide)
      (by decide)⟩

/-- C4: the claim says `enhance_audio` returns a buffer of the input's
duration; in fact it never returns a buffer at all, raising the 1.5
multiplier `TypeError` on every input. -/
theorem enhance_audio_never_returns (s : Seg) :
    exceptIsOk (enhance_audio s) = false := rfl

/-- C5: the speed conditional of `create_audio` is dead code: the
enhancement step raises first, so a run at speed 2.0 performs exactly the
same side effects and raises exactly the same exception as a run at speed
1.0, and no speedup transform is ever applied. -/
theorem create_audio_speed_dead_code :
    create_audio { output_dir := "audio_output" } demoEnv "hello" "story" none 2 =
      create_audio { output_dir := "audio_output" } demoEnv "hello" "story" none 1 ∧
    (create_audio { output_dir := "audio_output" } demoEnv "hello" "story" none 2).result =
      .error (.typeError "cannot multiply sequence by non-int of type float") :=
  ⟨rfl, rfl⟩

/-- C6: an empty story text short-circuits the generate handler: the
warning is rendered and no external side effect happens, in particular no
gTTS synthesis call and no file is produced. -/
theorem empty_text_no_synthesis (env : PydubEnv) (temp_dir title : String)
    (bg : Option String) (speed : Rat) (v : Int) :
    single_story_generate env temp_dir title "" bg speed v =
      ⟨UIOutcome.warningShown "Please enter some text to generate audio.", []⟩ := rfl

/-- C7: on the specification's own example batch, `create_audio` raises on
the first story (the enhancement `TypeError`), so `batch_process`
propagates the exception after only the first synthesis side effect: story
B is never processed and no title-to-path mapping is returned. -/
theorem batch_process_aborts_first :
    (batch_process { output_dir := "audio_output" } demoEnv
        [("A", "hello"), ("B", "world")] none 1).result =
      .error (.typeError "cannot multiply sequence by non-int of type float") ∧
    (batch_process { output_dir := "audio_output" } demoEnv
        [("A", "hello"), ("B", "world")] none 1).events =
      [Event.ttsSave "hello" "en" false "temp.mp3"] :=
  ⟨rfl, rfl⟩

/-- C8: `create_audio` never reaches the export: it raises the enhancement
`TypeError` after writing the raw synthesis file, so no MP3 is exported at
any bitrate, the temp file is not deleted, and no output path is
returned. -/
theorem create_audio_never_exports :
    (create_audio { output_dir := "audio_output" } demoEnv "Once upon a time" "My Story"
        none 1).result =
      .error (.typeError "cannot multiply sequence by non-int of type float") ∧
    (create_audio { output_dir := "audio_output" } demoEnv "Once upon a time" "My Story"
        none 1).events = [Event.ttsSave "Once upon a time" "en" false "temp.mp3"] :=
  ⟨rfl, rfl⟩

/-- C9: `add_background_music` on a zero-length music buffer raises the
division by zero whenever the voice is non-empty; the division is only
reached when the music is strictly shorter than the voice, so a non-empty
music buffer never raises, and a zero-length music buffer under a
zero-length voice does not reach the division either. -/
theorem add_background_music_zero_guard (env : PydubEnv) (voice : Seg) (path : String)
    (v : Int) :
    ((Seg.from_file path).msLen env = 0 → 0 < voice.msLen env →
      add_background_music env voice path v = .error .zeroDivisionError) ∧
    (0 < (Seg.from_file path).msLen env →
      exceptIsOk (add_background_music env voice path v) = true) ∧
    ((Seg.from_file path).msLen env = 0 → voice.msLen env = 0 →
      exceptIsOk (add_background_music env voice path v) = true) := by
  refine ⟨fun h0 hD => ?_, fun hM => ?_, fun h0 hD => ?_⟩
  · have hlt : (Seg.from_file path).msLen env < voice.msLen env := by omega
    simp only [add_background_music]
    rw [if_pos hlt, if_pos h0]
  · have hM0 : (Seg.from_file path).msLen env ≠ 0 := by omega
    by_cases h : (Seg.from_file path).msLen env < voice.msLen env
    · simp only [add_background_music]
      rw [if_pos h, if_neg hM0, pydubMulNum_natCast]
      rfl
    · simp only [add_background_music]
      rw [if_neg h]
      rfl
  · have hnlt : ¬ (Seg.from_file path).msLen env < voice.msLen env := by omega
    simp only [add_background_music]
    rw [if_neg hnlt]
    rfl

/-- Witness for C9: the 0 ms `silent.mp3` under a 10000 ms voice raises,
and the 400 ms `music.mp3` does not. -/
theorem add_background_music_zero_guard_witness :
    add_background_music demoEnv (Seg.from_file "voice.mp3") "silent.mp3" (-20) =
      .error .zeroDivisionError ∧
    exceptIsOk (add_background_music demoEnv (Seg.from_file "voice.mp3") "music.mp3"
      (-20)) = true :=
  ⟨(add_background_music_zero_guard demoEnv (Seg.from_file "voice.mp3") "silent.mp3"
      (-20)).1 (by decide) (by decide),
    (add_background_music_zero_guard demoEnv (Seg.from_file "voice.mp3") "music.mp3"
      (-20)).2.1 (by decide)⟩

/-- C10: whatever the arguments and whatever the output directory, the raw
synthesis is written to the fixed relative path `temp.mp3`, and when the
call exits with an exception that file has not been removed. -/
theorem temp_file_not_removed_on_error (self : ProfessionalTTS) (env : PydubEnv)
    (text title : String) (bg : Option String) (speed : Rat)
    (h : exceptIsOk (create_audio self env text title bg speed).result = false) :
    Event.ttsSave text "en" false "temp.mp3" ∈
      (create_audio self env text title bg speed).events ∧
    Event.removeFile "temp.mp3" ∉ (create_audio self env text title bg speed).events := by
  have hrun : create_audio self env text title bg speed =
      ⟨[Event.ttsSave text "en" false "temp.mp3"],
        .error (.typeError "cannot multiply sequence by non-int of type float")⟩ := rfl
  rw [hrun]
  refine ⟨List.mem_singleton.mpr rfl, ?_⟩
  simp

/-- Witness for C10 at concrete arguments. -/
theorem temp_file_not_removed_on_error_witness :
    exceptIsOk (create_audio { output_dir := "audio_output" } demoEnv "hi" "story"
      none 1).result = false ∧
    (Event.ttsSave "hi" "en" false "temp.mp3" ∈
        (create_audio { output_dir := "audio_output" } demoEnv "hi" "story" none 1).events ∧
      Event.removeFile "temp.mp3" ∉
        (create_audio { output_dir := "audio_output" } demoEnv "hi" "story" none 1).events) :=
  ⟨rfl,
    temp_file_not_removed_on_error { output_dir := "audio_output" } demoEnv "hi" "story"
      none 1 rfl⟩
